import Mathlib

set_option maxRecDepth 100000
set_option maxHeartbeats 4000000

/-
Verification development for the Next.js 15 migration scripts of this
repository: scripts/fix_params.py, scripts/migrate-next15.py and
scripts/migrate-routes.py.  The scripts rewrite TypeScript source text with
chained Python re.sub calls; here each regex pattern is embedded as an
explicit matcher over lists of characters, reproducing Python's leftmost,
non-overlapping, resume-after-match scanning discipline, and every rewrite
function is translated statement by statement.  Brace characters inside
string literals are written with hex escapes.
-/

namespace Rw

/-- Source text is modelled as a list of characters. -/
abbrev Text := List Char

/-- The opening brace character. -/
def braceL : Char := '\x7b'

/-- The closing brace character. -/
def braceR : Char := '\x7d'

/-- Python regex whitespace class: space, tab, newline, carriage return,
vertical tab and form feed. -/
def isWsChar (c : Char) : Bool :=
  c = ' ' || c = '\t' || c = '\n' || c = '\r' || c = '\x0b' || c = '\x0c'

/-- Python regex word class over ASCII input: letters, digits, underscore. -/
def isWordChar (c : Char) : Bool :=
  c.isAlphanum || c = '_'

/-- Match a literal piece of text at the front; return the remainder. -/
def litP (pat s : Text) : Option Text :=
  if pat.isPrefixOf s then some (s.drop pat.length) else none

/-- Greedy, possibly empty whitespace run. -/
def wsStar (s : Text) : Text × Text := s.span isWsChar

/-- Greedy nonempty whitespace run. -/
def wsPlus (s : Text) : Option (Text × Text) :=
  match s.span isWsChar with
  | ([], _) => none
  | (w, r) => some (w, r)

/-- Greedy nonempty word-character run. -/
def wordPlus (s : Text) : Option (Text × Text) :=
  match s.span isWordChar with
  | ([], _) => none
  | (w, r) => some (w, r)

/-- Greedy run of characters other than the given stop character. -/
def runTo (stop : Char) (s : Text) : Text × Text :=
  s.span (fun c => !(c = stop))

/-- Capture semantics of a whitespace-star followed by a nonempty
negated-class group: the greedy whitespace prefix backtracks just enough to
leave the group nonempty.  Given the full run of class characters, the
captured group is the run with its whitespace prefix removed, except that a
run made only of whitespace yields its final character. -/
def groupFromRun (run : Text) : Option Text :=
  if run.isEmpty then none
  else
    match run.dropWhile isWsChar with
    | [] => some (run.drop (run.length - 1))
    | t => some t

/-- Leftmost-match search: scan positions left to right, trying the matcher
at each suffix; return the text before the match and the matcher's result. -/
def searchWith {α : Type} (tm : Text → Option α) : Text → Option (Text × α)
  | [] => none
  | c :: cs =>
    match tm (c :: cs) with
    | some a => some ([], a)
    | none =>
      match searchWith tm cs with
      | some (pre, a) => some (c :: pre, a)
      | none => none

/-- Whether the matcher fires anywhere in the text. -/
def hasMatch {α : Type} (tm : Text → Option α) (s : Text) : Bool :=
  (searchWith tm s).isSome

/-- One re.sub pass: scan left to right; at a match emit the replacement and
resume after the match, otherwise keep the character.  Every matcher used
consumes at least one character, so fuel equal to the length suffices. -/
def scanSub (tm : Text → Option (Text × Text)) : Nat → Text → Text
  | 0, s => s
  | _ + 1, [] => []
  | fuel + 1, c :: cs =>
    match tm (c :: cs) with
    | some (repl, rest) => repl ++ scanSub tm fuel rest
    | none => c :: scanSub tm fuel cs

/-- re.sub with the standard fuel. -/
def runSub (tm : Text → Option (Text × Text)) (s : Text) : Text :=
  scanSub tm s.length s

/-- re.findall: collect the captured group of every non-overlapping match,
left to right. -/
def scanAll (tm : Text → Option (Text × Text)) : Nat → Text → List Text
  | 0, _ => []
  | _ + 1, [] => []
  | fuel + 1, c :: cs =>
    match tm (c :: cs) with
    | some (g, rest) => g :: scanAll tm fuel rest
    | none => scanAll tm fuel cs

/-- re.findall with the standard fuel. -/
def runFindall (tm : Text → Option (Text × Text)) (s : Text) : List Text :=
  scanAll tm s.length s

/-- Python str.replace for a nonempty needle: replace every non-overlapping
occurrence, scanning left to right. -/
def scanRepl (old new : Text) : Nat → Text → Text
  | 0, s => s
  | _ + 1, [] => []
  | fuel + 1, c :: cs =>
    if old.isPrefixOf (c :: cs) then new ++ scanRepl old new fuel ((c :: cs).drop old.length)
    else c :: scanRepl old new fuel cs

/-- str.replace with the standard fuel. -/
def replaceEvery (old new : Text) (s : Text) : Text :=
  scanRepl old new s.length s

/-- Python substring containment. -/
def containsSub : Text → Text → Bool
  | [], pat => pat.isEmpty
  | c :: cs, pat => pat.isPrefixOf (c :: cs) || containsSub cs pat

/-- Number of positions at which the pattern occurs. -/
def countSub : Text → Text → Nat
  | [], _ => 0
  | c :: cs, pat => (if pat.isPrefixOf (c :: cs) then 1 else 0) + countSub cs pat

/-- Python str.replace(target, new, 1) for a single-character target:
replace only the first occurrence. -/
def replaceFirstChar (target : Char) (new : Text) : Text → Text
  | [] => []
  | c :: cs => if c = target then new ++ cs else c :: replaceFirstChar target new cs

/-- Python ", ".join. -/
def joinComma : List Text → Text
  | [] => []
  | [x] => x
  | x :: y :: xs => x ++ ", ".data ++ joinComma (y :: xs)

namespace FixParams

/-- is_client_component from scripts/fix_params.py. -/
def is_client_component (content : Text) : Bool :=
  containsSub content "\x27use client\x27".data ||
    containsSub content "\"use client\"".data

/-- Matcher for one occurrence of the findall pattern params-question-dot
followed by a word group. -/
def tryParamsFind (s : Text) : Option (Text × Text) := do
  let r1 ← litP "params?.".data s
  let (w, r2) ← wordPlus r1
  some (w, r2)

/-- The ordered re.findall underlying find_params_usage in
scripts/fix_params.py.  The script then applies list(set(...)) whose
iteration order is a property of the interpreter run, not of the input, so
the script's actual params_list is some permutation of the deduplication of
this list. -/
def find_params_usage_all (content : Text) : List Text :=
  runFindall tryParamsFind content

/-- has_params_import from scripts/fix_params.py. -/
def has_params_import (content : Text) : Bool :=
  containsSub content "useParams".data && containsSub content "next/navigation".data

/-- Matcher for the declaration pattern const-params-equals-useParams(). -/
def tryConstUseParams (s : Text) : Option Text := do
  let r1 ← litP "const".data s
  let (_, r2) ← wsPlus r1
  let r3 ← litP "params".data r2
  let (_, r4) := wsStar r3
  let r5 ← litP "=".data r4
  let (_, r6) := wsStar r5
  litP "useParams()".data r6

/-- Matcher for the props-destructuring pattern: brace, params, brace,
colon, brace, params-colon. -/
def trySigParamsDecl (s : Text) : Option Text := do
  let r1 ← litP [braceL] s
  let (_, r2) := wsStar r1
  let r3 ← litP "params".data r2
  let (_, r4) := wsStar r3
  let r5 ← litP [braceR] r4
  let r6 ← litP ":".data r5
  let (_, r7) := wsStar r6
  let r8 ← litP [braceL] r7
  let (_, r9) := wsStar r8
  litP "params:".data r9

/-- has_params_declaration from scripts/fix_params.py. -/
def has_params_declaration (content : Text) : Bool :=
  hasMatch tryConstUseParams content || hasMatch trySigParamsDecl content

/-- The import line inserted by the script. -/
def importLine : Text :=
  "import \x7b useParams \x7d from \x27next/navigation\x27;\n".data

/-- The characters after the last newline of a whitespace run, if the run
contains a newline at all.  Used for the backtracking of the
whitespace-semicolon-newline tail of the use-client directive pattern. -/
def afterLastNl (w : Text) : Option Text :=
  match w.reverse.span (fun c => !(c = '\n')) with
  | (_, []) => none
  | (tailRev, _) => some tailRev.reverse

/-- Matcher for the directive pattern: a quoted use-client directive,
optional whitespace, optional semicolon, then a newline; the replacement
normalises to directive-semicolon-newline followed by the import line. -/
def tryUseClientLine (s : Text) : Option (Text × Text) :=
  let quoted : Option (Text × Text) :=
    match litP "\x27use client\x27".data s with
    | some r => some ("\x27use client\x27".data, r)
    | none =>
      match litP "\"use client\"".data s with
      | some r => some ("\"use client\"".data, r)
      | none => none
  match quoted with
  | none => none
  | some (q, r1) =>
    let (w, r2) := wsStar r1
    match r2 with
    | ';' :: '\n' :: r3 => some (q ++ ";\n".data ++ importLine, r3)
    | _ =>
      match afterLastNl w with
      | some tl => some (q ++ ";\n".data ++ importLine, tl ++ r2)
      | none => none

/-- add_use_params_import from scripts/fix_params.py. -/
def add_use_params_import (content : Text) : Text :=
  if has_params_import content then content
  else if is_client_component content then runSub tryUseClientLine content
  else importLine ++ content

/-- A match together with the remainder that follows it. -/
structure MR where
  matched : Text
  rest : Text
deriving DecidableEq, Repr

/-- Matcher for the capture group export-default followed by whitespace. -/
def tryExportDefault (s : Text) : Option (Text × Text) := do
  let r1 ← litP "export".data s
  let (w1, r2) ← wsPlus r1
  let r3 ← litP "default".data r2
  let (w2, r4) ← wsPlus r3
  some ("export".data ++ w1 ++ "default".data ++ w2, r4)

/-- Matcher for the keyword async followed by whitespace. -/
def tryAsyncKw (s : Text) : Option (Text × Text) := do
  let r1 ← litP "async".data s
  let (w, r2) ← wsPlus r1
  some ("async".data ++ w, r2)

/-- Tail of the client-component function pattern: function, name,
parenthesised argument list, opening brace. -/
def tryCFTail (pre : Text) (s : Text) : Option MR := do
  let r1 ← litP "function".data s
  let (w1, r2) ← wsPlus r1
  let (nm, r3) ← wordPlus r2
  let (w2, r4) := wsStar r3
  let r5 ← litP "(".data r4
  let (args, r6) := runTo ')' r5
  let r7 ← litP ")".data r6
  let (w3, r8) := wsStar r7
  let r9 ← litP [braceL] r8
  some ⟨pre ++ "function".data ++ w1 ++ nm ++ w2 ++ "(".data ++ args ++ ")".data ++ w3 ++ [braceL], r9⟩

/-- Optional async group before the client function tail. -/
def tryCFAsync (pre : Text) (s : Text) : Option MR :=
  match tryAsyncKw s with
  | some (a, r) =>
    match tryCFTail (pre ++ a) r with
    | some m => some m
    | none => tryCFTail pre s
  | none => tryCFTail pre s

/-- Matcher for the full function-declaration pattern of
fix_client_component, with both optional groups and regex backtracking
order. -/
def tryClientFunc (s : Text) : Option MR :=
  match tryExportDefault s with
  | some (g1, r) =>
    match tryCFAsync g1 r with
    | some m => some m
    | none => tryCFAsync [] s
  | none => tryCFAsync [] s

/-- The hook declaration plus one extracted-variable line per binding, as
inserted by fix_client_component. -/
def clientDecls (l : List Text) : Text :=
  "\n  const params = useParams();\n".data ++
    (l.map (fun p =>
      "  const ".data ++ p ++ " = params?.".data ++ p ++ " as string;\n".data)).flatten

/-- Matcher for one usage-site substitution: params-question-dot, the given
name, then a lookahead requiring whitespace, a closing parenthesis, a comma,
a semicolon, or end of text; the lookahead is not consumed. -/
def tryParamsOptSub (p : Text) (s : Text) : Option (Text × Text) := do
  let r1 ← litP ("params?.".data ++ p) s
  match r1 with
  | [] => some (p, ([] : Text))
  | c :: _ => if isWsChar c || c = ')' || c = ',' || c = ';' then some (p, r1) else none

/-- The usage-site substitution loop shared by both fix functions. -/
def subParamsOptAll (l : List Text) (content : Text) : Text :=
  l.foldl (fun acc p => runSub (tryParamsOptSub p) acc) content

/-- fix_client_component from scripts/fix_params.py. -/
def fix_client_component (content : Text) (l : List Text) : Text :=
  let c1 :=
    if has_params_declaration content then content
    else
      match searchWith tryClientFunc content with
      | none => content
      | some (pre, m) => pre ++ m.matched ++ clientDecls l ++ m.rest
  subParamsOptAll l c1

/-- A server-function match: the optional export-default capture, the
function name capture, and the remainder after the closing parenthesis. -/
structure SM where
  g1 : Text
  g2 : Text
  rest : Text
deriving DecidableEq, Repr

/-- Tail of the server-component function pattern (no trailing brace). -/
def trySFTail (g1 : Text) (s : Text) : Option SM := do
  let r1 ← litP "function".data s
  let (_, r2) ← wsPlus r1
  let (nm, r3) ← wordPlus r2
  let (_, r4) := wsStar r3
  let r5 ← litP "(".data r4
  let (_, r6) := runTo ')' r5
  let r7 ← litP ")".data r6
  some ⟨g1, nm, r7⟩

/-- Optional async group before the server function tail. -/
def trySFAsync (g1 : Text) (s : Text) : Option SM :=
  match tryAsyncKw s with
  | some (_, r) =>
    match trySFTail g1 r with
    | some m => some m
    | none => trySFTail g1 s
  | none => trySFTail g1 s

/-- Matcher for the full function-declaration pattern of
fix_server_component. -/
def tryServerFunc (s : Text) : Option SM :=
  match tryExportDefault s with
  | some (g1, r) =>
    match trySFAsync g1 r with
    | some m => some m
    | none => trySFAsync [] s
  | none => trySFAsync [] s

/-- The params interface text built by fix_server_component. -/
def serverParamsType (l : List Text) : Text :=
  "\x7b ".data ++ joinComma (l.map (fun p => p ++ ": string".data)) ++ " \x7d".data

/-- The params property text built by fix_server_component. -/
def serverParamsProp (l : List Text) : Text :=
  "\x7b params \x7d: \x7b params: Promise<".data ++ serverParamsType l ++ "> \x7d".data

/-- The replacement signature built by fix_server_component. -/
def serverNewSig (g1 g2 : Text) (l : List Text) : Text :=
  g1 ++ "async function ".data ++ g2 ++ "(".data ++ serverParamsProp l ++ ")".data

/-- The extraction statement built by fix_server_component. -/
def serverParamsDecl (l : List Text) : Text :=
  "\n  const \x7b ".data ++ joinComma l ++ " \x7d = await params;\n".data

/-- fix_server_component from scripts/fix_params.py: replace the first
function signature, splice the extraction statement after the first opening
brace of the whole rewritten text, then rewrite usage sites. -/
def fix_server_component (content : Text) (l : List Text) : Text :=
  match searchWith tryServerFunc content with
  | none => content
  | some (pre, m) =>
    let c1 := pre ++ serverNewSig m.g1 m.g2 l ++ m.rest
    let c2 := replaceFirstChar braceL (braceL :: serverParamsDecl l) c1
    subParamsOptAll l c2

/-- fix_file from scripts/fix_params.py, as a pure function of the file
content; the ord parameter stands for the iteration order that list(set())
imposes on the extracted names in a given interpreter run.  Returns the
written content, the was-modified flag and the params_fixed list. -/
def fix_file_content (ord : List Text → List Text) (c : Text) : Text × Bool × List Text :=
  if !(containsSub c "params?".data) then (c, false, [])
  else
    let pl := ord (find_params_usage_all c)
    if pl.isEmpty then (c, false, [])
    else
      let c2 := if is_client_component c then fix_client_component (add_use_params_import c) pl
                else fix_server_component c pl
      if c2 = c then (c, false, []) else (c2, true, pl)

/-- The per-file loop of main in scripts/fix_params.py: a file whose read or
processing raises lands in the except branch of fix_file, which returns
(False, []), so the file leaves no trace; the final summary lists only the
(path, params_fixed) pairs of modified files. -/
def runReport (ord : List Text → List Text) :
    List (Text × Except Text Text) → List (Text × List Text)
  | [] => []
  | (_, Except.error _) :: rest => runReport ord rest
  | (p, Except.ok c) :: rest =>
    let r := fix_file_content ord c
    if r.2.1 then (p, r.2.2) :: runReport ord rest else runReport ord rest

end FixParams

namespace MigrateNext15

/-- Matcher for the obsolete interface declaration pattern: interface,
optionally-Route-prefixed Params, a brace, any non-closing-brace run, a
closing brace; the replacement is empty. -/
def tryInterfaceParams (s : Text) : Option (Text × Text) := do
  let r1 ← litP "interface".data s
  let (_, r2) ← wsPlus r1
  let r3 ←
    match litP "RouteParams".data r2 with
    | some r => some r
    | none => litP "Params".data r2
  let (_, r4) := wsStar r3
  let r5 ← litP [braceL] r4
  let (_, r6) := runTo braceR r5
  let r7 ← litP [braceR] r6
  some (([] : Text), r7)

/-- Matcher for the destructured-signature pattern wrapping the inner braced
type into Promise, shared by fix_route_handler and fix_server_page. -/
def trySigPromise (s : Text) : Option (Text × Text) := do
  let r1 ← litP [braceL] s
  let (_, r2) := wsStar r1
  let r3 ← litP "params".data r2
  let (_, r4) := wsStar r3
  let r5 ← litP [braceR] r4
  let r6 ← litP ":".data r5
  let (_, r7) := wsStar r6
  let r8 ← litP [braceL] r7
  let (_, r9) := wsStar r8
  let r10 ← litP "params:".data r9
  let (_, r11) := wsStar r10
  let r12 ← litP [braceL] r11
  let (run, r13) := runTo braceR r12
  let g ← groupFromRun run
  let r14 ← litP [braceR] r13
  let (_, r15) := wsStar r14
  let r16 ← litP [braceR] r15
  some ("\x7b params \x7d: \x7b params: Promise<\x7b".data ++ g ++ "\x7d> \x7d".data, r16)

/-- Matcher for the named-type signature pattern, replaced by the fixed
Promise-of-id signature. -/
def trySigRoute (s : Text) : Option (Text × Text) := do
  let r1 ← litP [braceL] s
  let (_, r2) := wsStar r1
  let r3 ← litP "params".data r2
  let (_, r4) := wsStar r3
  let r5 ← litP [braceR] r4
  let r6 ← litP ":".data r5
  let (_, r7) := wsStar r6
  let r8 ←
    match litP "RouteParams".data r7 with
    | some r => some r
    | none => litP "Params".data r7
  some ("\x7b params \x7d: \x7b params: Promise<\x7b id: string \x7d> \x7d".data, r8)

/-- Matcher for the destructuring statement pattern, gaining an await. -/
def tryConstParams (s : Text) : Option (Text × Text) := do
  let r1 ← litP "const".data s
  let (_, r2) := wsStar r1
  let r3 ← litP [braceL] r2
  let (run, r4) := runTo braceR r3
  if run.isEmpty then none else
  let r5 ← litP [braceR] r4
  let (_, r6) := wsStar r5
  let r7 ← litP "=".data r6
  let (_, r8) := wsStar r7
  let r9 ← litP "params;".data r8
  some ("const \x7b".data ++ run ++ "\x7d = await params;".data, r9)

/-- Matcher for direct member access on params, wrapped into an inline
await. -/
def tryParamsDotAwait (s : Text) : Option (Text × Text) := do
  let r1 ← litP "params.".data s
  let (w, r2) ← wordPlus r1
  some ("(await params).".data ++ w, r2)

/-- fix_route_handler from scripts/migrate-next15.py: the five substitutions
in source order. -/
def fix_route_handler (content : Text) : Text :=
  let c1 := runSub tryInterfaceParams content
  let c2 := runSub trySigPromise c1
  let c3 := runSub trySigRoute c2
  let c4 := runSub tryConstParams c3
  runSub tryParamsDotAwait c4

/-- Matcher for the export-default-function-Page pattern gaining async. -/
def tryAsyncPage (s : Text) : Option (Text × Text) := do
  let (g1, r1) ← FixParams.tryExportDefault s
  let r2 ← litP "function".data r1
  let (_, r3) ← wsPlus r2
  let r4 ← litP "Page".data r3
  some (g1 ++ "async function Page".data, r4)

/-- fix_server_page from scripts/migrate-next15.py. -/
def fix_server_page (content : Text) : Text :=
  let c1 := runSub tryAsyncPage content
  let c2 := runSub trySigPromise c1
  runSub tryConstParams c2

/-- Matcher for one import statement line: import, a nonempty run without
semicolons, a semicolon and a newline. -/
def tryImportUnit (s : Text) : Option (Text × Text) := do
  let r1 ← litP "import".data s
  let (run, r2) := runTo ';' r1
  if run.isEmpty then none else
  match r2 with
  | ';' :: '\n' :: r3 => some ("import".data ++ run ++ ";\n".data, r3)
  | _ => none

/-- Greedy repetition of import statement lines. -/
def repImportUnits : Nat → Text → Text × Text
  | 0, s => (([] : Text), s)
  | fuel + 1, s =>
    match tryImportUnit s with
    | some (u, r) =>
      let (acc, rest) := repImportUnits fuel r
      (u ++ acc, rest)
    | none => (([] : Text), s)

/-- Matcher for a maximal block of consecutive import statement lines. -/
def tryImportBlock (s : Text) : Option FixParams.MR := do
  let (u, r) ← tryImportUnit s
  let (acc, rest) := repImportUnits r.length r
  some ⟨u ++ acc, rest⟩

/-- Matcher removing a params argument from the Page signature. -/
def tryRemoveSigClient (s : Text) : Option (Text × Text) := do
  let (_, r1) ← FixParams.tryExportDefault s
  let r2 ← litP "function".data r1
  let (_, r3) ← wsPlus r2
  let r4 ← litP "Page".data r3
  let (_, r5) := wsStar r4
  let r6 ← litP "(".data r5
  let r7 ← litP [braceL] r6
  let (_, r8) := wsStar r7
  let r9 ← litP "params".data r8
  let (_, r10) := wsStar r9
  let r11 ← litP [braceR] r10
  let r12 ← litP ":".data r11
  let (run, r13) := runTo ')' r12
  if run.isEmpty then none else
  let r14 ← litP ")".data r13
  some ("export default function Page()".data, r14)

/-- Matcher for the Page function declaration with its opening brace. -/
def tryPageFunc (s : Text) : Option FixParams.MR := do
  let (g1, r1) ← FixParams.tryExportDefault s
  let r2 ← litP "function".data r1
  let (w1, r3) ← wsPlus r2
  let r4 ← litP "Page".data r3
  let (w2, r5) := wsStar r4
  let r6 ← litP "(".data r5
  let (args, r7) := runTo ')' r6
  let r8 ← litP ")".data r7
  let (w3, r9) := wsStar r8
  let r10 ← litP [braceL] r9
  some ⟨g1 ++ "function".data ++ w1 ++ "Page".data ++ w2 ++ "(".data ++ args ++ ")".data ++ w3 ++ [braceL], r10⟩

/-- First whitespace run starting just after a newline. -/
def firstIndentAfterNl : Text → Option Text
  | [] => none
  | '\n' :: cs =>
    match cs with
    | c2 :: _ => if isWsChar c2 then some ((cs.span isWsChar).1) else firstIndentAfterNl cs
    | [] => none
  | _ :: cs => firstIndentAfterNl cs

/-- The multiline search for a leading whitespace run: at the start of the
text, or just after a newline. -/
def firstIndentRun (s : Text) : Option Text :=
  match s with
  | [] => none
  | c :: _ => if isWsChar c then some ((s.span isWsChar).1) else firstIndentAfterNl s

/-- Matcher turning direct member access on params into optional chaining. -/
def tryParamsDotOpt (s : Text) : Option (Text × Text) := do
  let r1 ← litP "params.".data s
  let (w, r2) ← wordPlus r1
  some ("params?.".data ++ w, r2)

/-- fix_client_page from scripts/migrate-next15.py. -/
def fix_client_page (content : Text) : Text :=
  if !(FixParams.is_client_component content) then content
  else
    let c1 :=
      if containsSub content "useParams".data then content
      else
        match searchWith tryImportBlock content with
        | some (_, m) => replaceEvery m.matched (m.matched ++ FixParams.importLine) content
        | none => FixParams.importLine ++ content
    let c2 := runSub tryRemoveSigClient c1
    let c3 :=
      if containsSub c2 "useParams()".data then c2
      else
        match searchWith tryPageFunc c2 with
        | none => c2
        | some (_, m) =>
          let ind := (firstIndentRun m.rest).getD "  ".data
          replaceEvery m.matched
            (m.matched ++ "\n".data ++ ind ++ "const params = useParams();".data) c2
    runSub tryParamsDotOpt c3

/-- The processed-file kinds distinguished by process_file in
scripts/migrate-next15.py: a route.ts file, a page.tsx file, anything
else. -/
inductive NKind
  | routeTs
  | pageTsx
  | other
deriving DecidableEq, Repr

/-- The status field of a processing result. -/
inductive PStatus
  | unchanged
  | modified
deriving DecidableEq, Repr

/-- Observable effects of processing one file: the reported status, whether
a backup copy was created in the backup directory, whether the file was
written, and the bytes on disk afterwards. -/
structure PFResult where
  status : PStatus
  backupCreated : Bool
  written : Bool
  disk : Text
deriving DecidableEq, Repr

/-- The rewrite selected by process_file for a file kind. -/
def rewriteFor : NKind → Text → Text
  | NKind.routeTs, c => fix_route_handler c
  | NKind.pageTsx, c =>
    if FixParams.is_client_component c then fix_client_page c else fix_server_page c
  | NKind.other, c => c

/-- process_file from scripts/migrate-next15.py: rewrite, and only when the
text changed create a backup and write the new text. -/
def process_file (k : NKind) (c : Text) : PFResult :=
  let n := rewriteFor k c
  if n = c then ⟨PStatus.unchanged, false, false, c⟩
  else ⟨PStatus.modified, true, true, n⟩

/-- The run report of main in scripts/migrate-next15.py: modified files and
per-file errors, both saved into migration_results.json and printed. -/
structure RunReport where
  modified : List Text
  errors : List (Text × Text)
deriving DecidableEq, Repr

/-- The per-file loop of main in scripts/migrate-next15.py: a file whose
processing raises is appended to the errors list and the loop continues; a
modified file is appended to the modified list. -/
def runFiles : List (Text × Except Text (NKind × Text)) → RunReport
  | [] => ⟨[], []⟩
  | (p, Except.error e) :: rest =>
    let r := runFiles rest
    ⟨r.modified, (p, e) :: r.errors⟩
  | (p, Except.ok (k, c)) :: rest =>
    let r := runFiles rest
    if (process_file k c).status = PStatus.modified then ⟨p :: r.modified, r.errors⟩
    else ⟨r.modified, r.errors⟩

end MigrateNext15

namespace MigrateRoutes

/-- Matcher for the Promise-typed signature pattern, unwrapped back to a
context argument. -/
def tryR1 (s : Text) : Option (Text × Text) := do
  let r1 ← litP [braceL] s
  let (_, r2) := wsStar r1
  let r3 ← litP "params".data r2
  let (_, r4) := wsStar r3
  let r5 ← litP [braceR] r4
  let r6 ← litP ":".data r5
  let (_, r7) := wsStar r6
  let r8 ← litP [braceL] r7
  let (_, r9) := wsStar r8
  let r10 ← litP "params:".data r9
  let (_, r11) := wsStar r10
  let r12 ← litP "Promise<".data r11
  let (run, r13) := runTo '>' r12
  if run.isEmpty then none else
  let r14 ← litP ">".data r13
  let r15 ← litP [braceR] r14
  some ("context: \x7b params: ".data ++ run ++ " \x7d".data, r15)

/-- Matcher for the braced-type signature pattern, rewritten to a context
argument. -/
def tryR2 (s : Text) : Option (Text × Text) := do
  let r1 ← litP [braceL] s
  let (_, r2) := wsStar r1
  let r3 ← litP "params".data r2
  let (_, r4) := wsStar r3
  let r5 ← litP [braceR] r4
  let r6 ← litP ":".data r5
  let (_, r7) := wsStar r6
  let r8 ← litP [braceL] r7
  let (_, r9) := wsStar r8
  let r10 ← litP "params:".data r9
  let (_, r11) := wsStar r10
  let r12 ← litP [braceL] r11
  let (run, r13) := runTo braceR r12
  let g ← groupFromRun run
  let r14 ← litP [braceR] r13
  let (_, r15) := wsStar r14
  let r16 ← litP [braceR] r15
  some ("context: \x7b params: \x7b ".data ++ g ++ " \x7d \x7d".data, r16)

/-- Matcher for the destructuring statement, redirected to context.params
and stripped of await. -/
def tryR3 (s : Text) : Option (Text × Text) := do
  let r1 ← litP "const".data s
  let (_, r2) := wsStar r1
  let r3 ← litP [braceL] r2
  let (run, r4) := runTo braceR r3
  let g ← groupFromRun run
  let r5 ← litP [braceR] r4
  let (_, r6) := wsStar r5
  let r7 ← litP "=".data r6
  let (_, r8) := wsStar r7
  let r9 ←
    match (do
      let ra ← litP "await".data r8
      let (_, rb) ← wsPlus ra
      litP "params".data rb : Option Text) with
    | some r => some r
    | none => litP "params".data r8
  some ("const \x7b ".data ++ g ++ " \x7d = context.params".data, r9)

/-- Matcher removing a standalone await before params. -/
def tryR4 (s : Text) : Option (Text × Text) := do
  let r1 ← litP "await".data s
  let (_, r2) ← wsPlus r1
  let r3 ← litP "params".data r2
  some ("params".data, r3)

/-- process_file from scripts/migrate-routes.py: the four substitutions in
source order. -/
def process_file (c : Text) : Text :=
  runSub tryR4 (runSub tryR3 (runSub tryR2 (runSub tryR1 c)))

/-- Observable effects of the per-file body of main in
scripts/migrate-routes.py: whether a backup copy was created, whether the
candidate file was written, the candidate file's bytes afterwards, and
whether a nonempty unified diff was printed. -/
structure RStep where
  backupCreated : Bool
  written : Bool
  disk : Text
  diffPrinted : Bool
deriving DecidableEq, Repr

/-- The per-file body of main in scripts/migrate-routes.py: backup_file is
called unconditionally before processing; in dry-run mode the diff is
printed when nonempty and nothing is written; otherwise the new content is
written unconditionally. -/
def fileStep (dryRun : Bool) (c : Text) : RStep :=
  let n := process_file c
  ⟨true, !dryRun, if dryRun then c else n, dryRun && !(decide (n = c))⟩

end MigrateRoutes

end Rw

namespace Rw

/-- Modelled from the words of claim C9: the extraction statement is
inserted immediately after the first occurrence of the opening brace in the
entire text, whatever construct that brace belongs to. -/
def specInsertAfterFirstBrace (decl : Text) : Text → Text
  | [] => []
  | c :: cs => if c = braceL then c :: (decl ++ cs) else c :: specInsertAfterFirstBrace decl cs

/-- A chained-access route-handler fragment on which the route rewrite is
not idempotent. -/
def c1Input : Text := "params.params.id".data

/-- An arbitrary file content left unchanged by the route migration. -/
def c2Hello : Text := "hello".data

/-- A route handler already in the target shape: no params at all. -/
def c2AlreadyMigrated : Text :=
  "export async function GET(req: Request) \x7b\n  return new Response(\x27ok\x27);\n\x7d\n".data

/-- A server component using two distinct dynamic parameters. -/
def c3Input : Text :=
  "export default function Page(props) \x7b\n  return [params?.a, params?.b];\n\x7d\n".data

/-- A route handler whose parameter bag is typed with a braced id field and
whose body reads params.id directly. -/
def c4Input : Text :=
  "export async function GET(req: Request, \x7b params \x7d: \x7b params: \x7b id: string \x7d \x7d) \x7b\n  return params.id;\n\x7d\n".data

/-- The route rewrite of c4Input. -/
def c4Output : Text :=
  "export async function GET(req: Request, \x7b params \x7d: \x7b params: Promise<\x7bid: string \x7d> \x7d) \x7b\n  return (await params).id;\n\x7d\n".data

/-- A route handler with an existing destructuring statement and a further
direct access. -/
def c4AwaitInput : Text :=
  "export async function GET(req: Request, \x7b params \x7d: \x7b params: \x7b id: string \x7d \x7d) \x7b\n  const \x7b id \x7d = params;\n  console.log(params.id);\n  return id;\n\x7d\n".data

/-- The route rewrite of c4AwaitInput. -/
def c4AwaitOutput : Text :=
  "export async function GET(req: Request, \x7b params \x7d: \x7b params: Promise<\x7bid: string \x7d> \x7d) \x7b\n  const \x7b id \x7d = await params;\n  console.log((await params).id);\n  return id;\n\x7d\n".data

/-- A file with two top-level default-exported function declarations that
both match the handler pattern. -/
def c5Input : Text :=
  "export default function A(p) \x7b\n  return params?.id;\n\x7d\nexport default function B(p) \x7b\n  return params?.id;\n\x7d\n".data

/-- The server-component rewrite of c5Input: the first declaration is
rewritten (and corrupted by the brace splice), the second declaration's
signature is untouched. -/
def c5Output : Text :=
  "export default async function A(\x7b\n  const \x7b id \x7d = await params;\n params \x7d: \x7b params: Promise<\x7b id: string \x7d> \x7d) \x7b\n  return id;\n\x7d\nexport default function B(p) \x7b\n  return id;\n\x7d\n".data

/-- A migrated route handler that the routes migration rewrites back. -/
def c6Input : Text :=
  "export async function GET(req: Request, \x7b params \x7d: \x7b params: Promise<\x7b id: string \x7d> \x7d) \x7b\n  const \x7b id \x7d = await params;\n\x7d\n".data

/-- A client page content that fix_file modifies. -/
def c7OkContent : Text :=
  "\x27use client\x27;\nexport default function Page() \x7b\n  return params?.id;\n\x7d\n".data

/-- A client file whose directive is not followed by a newline. -/
def c8NoNewline : Text := "\x27use client\x27".data

/-- A client page with the directive followed by a semicolon and newline. -/
def c8Marker : Text :=
  "\x27use client\x27;\nexport default function Page() \x7b\n  return params?.id;\n\x7d\n".data

/-- c8Marker with the import line inserted directly after the directive. -/
def c8MarkerOut : Text :=
  "\x27use client\x27;\nimport \x7b useParams \x7d from \x27next/navigation\x27;\nexport default function Page() \x7b\n  return params?.id;\n\x7d\n".data

/-- A file with no directive and no import. -/
def c8Plain : Text := "const x = params?.id;\n".data

/-- The client pipeline output for c8Marker: import added, hook invocation
inserted once, usage sites flattened. -/
def c8AfterOnce : Text :=
  "\x27use client\x27;\nimport \x7b useParams \x7d from \x27next/navigation\x27;\nexport default function Page() \x7b\n  const params = useParams();\n  const id = id as string;\n\n  return id;\n\x7d\n".data

/-- A client page for migrate-next15.py with a directive, one import
statement and a direct params access in the Page body. -/
def c8PageWithImports : Text :=
  "\x27use client\x27;\nimport A from \x27a\x27;\nexport default function Page(\x7b params \x7d: Props) \x7b\n  return params.slug;\n\x7d\n".data

/-- The fix_client_page output for c8PageWithImports: the hook import lands
after the leading import block, not directly after the directive, and the
hook invocation is inserted inside the Page body. -/
def c8PageWithImportsOut : Text :=
  "\x27use client\x27;\nimport A from \x27a\x27;\nimport \x7b useParams \x7d from \x27next/navigation\x27;\nexport default function Page() \x7b\n\n  const params = useParams();\n  return params?.slug;\n\x7d\n".data

/-- A client page for migrate-next15.py with a directive but no import
statement lines. -/
def c8PageNoImports : Text :=
  "\x27use client\x27;\nexport default function Page(\x7b params \x7d: Props) \x7b\n  return params.slug;\n\x7d\n".data

/-- The fix_client_page output for c8PageNoImports: with no import block the
hook import is prepended to the whole file, before the directive. -/
def c8PageNoImportsOut : Text :=
  "import \x7b useParams \x7d from \x27next/navigation\x27;\n\x27use client\x27;\nexport default function Page() \x7b\n\n  const params = useParams();\n  return params?.slug;\n\x7d\n".data

/-- The hook-invocation statement inserted by both client rewrites. -/
def hookInvocation : Text := "const params = useParams();".data

/-- A server component preceded by a braced import clause, so the first
opening brace of the file lies inside the import. -/
def c9Input : Text :=
  "import \x7b x \x7d from \x27y\x27;\nexport default function Page(props) \x7b\n  return params?.id;\n\x7d\n".data

/-- The text before the function match of c9Input. -/
def c9Pre : Text := "import \x7b x \x7d from \x27y\x27;\n".data

/-- The text after the function match of c9Input. -/
def c9Rest : Text := " \x7b\n  return params?.id;\n\x7d\n".data

/-- The server-component rewrite of c9Input: the extraction statement lands
inside the import clause, outside the function body. -/
def c9Output : Text :=
  "import \x7b\n  const \x7b id \x7d = await params;\n x \x7d from \x27y\x27;\nexport default async function Page(\x7b params \x7d: \x7b params: Promise<\x7b id: string \x7d> \x7d) \x7b\n  return id;\n\x7d\n".data

/-- A client component written as an arrow function: no function declaration
matches, so no binding lines are inserted. -/
def c10Arrow : Text := "\x27use client\x27;\nconst Page = () => params?.id;\n".data

/-- A client component with a matching function declaration. -/
def c10Fn : Text :=
  "\x27use client\x27;\nexport default function Page() \x7b\n  return params?.id;\n\x7d\n".data

/-- Splicing a declaration-prefixed brace in place of the first brace is the
same as inserting the declaration immediately after the first brace. -/
theorem replaceFirstChar_brace_eq_insert (d : Text) (t : Text) :
    replaceFirstChar braceL (braceL :: d) t = specInsertAfterFirstBrace d t := by
  induction t with
  | nil => rfl
  | cons c cs ih =>
    by_cases h : c = braceL <;> simp [replaceFirstChar, specInsertAfterFirstBrace, h, ih]

/-- Claim C1: the rewrite is claimed idempotent for every input of a role;
the route-handler rewrite violates this on a chained member access, because
the second application rewraps the member access produced by the first.  -/
theorem c1_route_rewrite_not_idempotent :
    MigrateNext15.fix_route_handler (MigrateNext15.fix_route_handler c1Input) ≠
      MigrateNext15.fix_route_handler c1Input := by decide

/-- Claim C2, counterexample: in scripts/migrate-routes.py the backup is
created before processing and the write happens unconditionally, so a file
whose rewritten text equals its original text still gets a backup and a
write. -/
theorem c2_unchanged_file_still_backed_up :
    MigrateRoutes.process_file c2Hello = c2Hello ∧
      (MigrateRoutes.fileStep false c2Hello).backupCreated = true ∧
      (MigrateRoutes.fileStep false c2Hello).written = true := by decide

/-- Claim C2, amended: in process_file of scripts/migrate-next15.py, a file
whose rewrite returns its original text is reported Unchanged, gets no
backup, and is not written. -/
theorem c2_next15_unchanged_no_backup_no_write (k : MigrateNext15.NKind) (c : Text)
    (h : MigrateNext15.rewriteFor k c = c) :
    MigrateNext15.process_file k c =
      ⟨MigrateNext15.PStatus.unchanged, false, false, c⟩ := by
  simp [MigrateNext15.process_file, h]

/-- Witness for the amended claim C2 at an already-migrated route file. -/
theorem c2_witness :
    MigrateNext15.rewriteFor MigrateNext15.NKind.routeTs c2AlreadyMigrated =
        c2AlreadyMigrated ∧
      MigrateNext15.process_file MigrateNext15.NKind.routeTs c2AlreadyMigrated =
        ⟨MigrateNext15.PStatus.unchanged, false, false, c2AlreadyMigrated⟩ :=
  ⟨by decide, c2_next15_unchanged_no_backup_no_write _ _ (by decide)⟩

/-- Claim C3: the emitted text is not a function of the input text alone;
the two orders in which list(set(...)) may enumerate the same extracted
set of names produce different output bytes, so extraction order, which
depends on the interpreter's hash seed, is not stable across runs. -/
theorem c3_extraction_order_changes_output :
    FixParams.find_params_usage_all c3Input = ["a".data, "b".data] ∧
      List.Perm ["a".data, "b".data] ["b".data, "a".data] ∧
      FixParams.fix_server_component c3Input ["a".data, "b".data] ≠
        FixParams.fix_server_component c3Input ["b".data, "a".data] := by
  refine ⟨by decide, ?_, by decide⟩
  exact List.Perm.swap "b".data "a".data []

/-- Claim C4, counterexample: for a handler typed with a braced id field the
route rewrite inserts no resolving statement and rewrites the direct access
to an inline await, not to the flat bound name. -/
theorem c4_route_rewrite_shape :
    containsSub c4Input "\x7b params \x7d: \x7b params: \x7b id: string \x7d \x7d".data = true ∧
      containsSub (MigrateNext15.fix_route_handler c4Input)
        "const \x7b id \x7d = await params;".data = false ∧
      containsSub (MigrateNext15.fix_route_handler c4Input)
        "(await params).id".data = true ∧
      containsSub (MigrateNext15.fix_route_handler c4Input)
        "Promise<\x7bid: string \x7d>".data = true := by decide

/-- Claim C4, amended: the signature is wrapped into the Promise type (with
the leading inner space consumed by the pattern), an existing destructuring
statement gains await in place, no new statement is inserted, and any other
direct access becomes an inline await. -/
theorem c4_route_rewrite_amended :
    MigrateNext15.fix_route_handler c4Input = c4Output ∧
      MigrateNext15.fix_route_handler c4AwaitInput = c4AwaitOutput := by decide

/-- Claim C5, counterexample: a file with two top-level default-exported
handler declarations is not left unmodified; the rewrite silently fires on
the first match (the script has no AmbiguousSignature error at all). -/
theorem c5_two_handlers_still_modified :
    countSub c5Input "export default function".data = 2 ∧
      FixParams.fix_server_component c5Input ["id".data] ≠ c5Input := by decide

/-- Claim C5, amended: with two matching declarations the server rewrite
replaces the first declaration's signature and leaves the second
declaration's signature in place, modifying the file silently. -/
theorem c5_first_match_rewritten :
    FixParams.fix_server_component c5Input ["id".data] = c5Output ∧
      containsSub c5Output "export default function B(p)".data = true := by decide

/-- Claim C6, counterexample: in dry-run mode the per-file body of
scripts/migrate-routes.py still creates a backup copy, so the run does
write new files. -/
theorem c6_dry_run_still_backs_up :
    (MigrateRoutes.fileStep true c6Input).backupCreated = true ∧
      MigrateRoutes.process_file c6Input ≠ c6Input := by decide

/-- Claim C6, amended: in dry-run mode no candidate file is written and its
bytes are preserved, and the diff is printed exactly for files that would
change, but a backup copy of every processed file is created anyway. -/
theorem c6_dry_run_frame (c : Text) :
    (MigrateRoutes.fileStep true c).written = false ∧
      (MigrateRoutes.fileStep true c).disk = c ∧
      (MigrateRoutes.fileStep true c).backupCreated = true ∧
      ((MigrateRoutes.fileStep true c).diffPrinted = true ↔
        MigrateRoutes.process_file c ≠ c) := by
  simp [MigrateRoutes.fileStep]

/-- Claim C7, counterexample: in scripts/fix_params.py a file whose
processing raises is absorbed by the except branch and the run's final
report lists only modified files, so the failure appears nowhere in it
while later files are still processed. -/
theorem c7_fix_params_error_not_reported :
    FixParams.runReport (fun l => l)
        [("a.tsx".data, Except.error "boom".data),
         ("b.tsx".data, Except.ok c7OkContent)] =
      [("b.tsx".data, ["id".data])] := by decide

/-- Claim C7, amended: per-file errors never abort the run in either
script; in scripts/migrate-next15.py every erroring file is recorded in the
report's errors list in order, while in scripts/fix_params.py the run
continues but the final report is as if the erroring file had not been
there. -/
theorem c7_error_containment :
    (∀ (pre post : List (Text × Except Text (MigrateNext15.NKind × Text))) (p e : Text),
        (MigrateNext15.runFiles (pre ++ (p, Except.error e) :: post)).errors =
            (MigrateNext15.runFiles pre).errors ++
              (p, e) :: (MigrateNext15.runFiles post).errors ∧
          (MigrateNext15.runFiles (pre ++ (p, Except.error e) :: post)).modified =
            (MigrateNext15.runFiles pre).modified ++
              (MigrateNext15.runFiles post).modified) ∧
      (∀ (ord : List Text → List Text) (pre post : List (Text × Except Text Text)) (p e : Text),
        FixParams.runReport ord (pre ++ (p, Except.error e) :: post) =
          FixParams.runReport ord (pre ++ post)) := by
  constructor
  · intro pre post p e
    induction pre with
    | nil => simp [MigrateNext15.runFiles]
    | cons hd tl ih =>
      obtain ⟨q, exc⟩ := hd
      cases exc with
      | error f => simp [MigrateNext15.runFiles, ih]
      | ok kc =>
        obtain ⟨k, c⟩ := kc
        by_cases hm : (MigrateNext15.process_file k c).status = MigrateNext15.PStatus.modified <;>
          simp [MigrateNext15.runFiles, hm, ih]
  · intro ord pre post p e
    induction pre with
    | nil => simp [FixParams.runReport]
    | cons hd tl ih =>
      obtain ⟨q, exc⟩ := hd
      cases exc with
      | error f => simp [FixParams.runReport, ih]
      | ok c =>
        by_cases hm : (FixParams.fix_file_content ord c).2.1 = true <;>
          simp [FixParams.runReport, hm, ih]

/-- Claim C8, counterexample: a client file whose directive is not followed
by a newline defeats the directive pattern, so the import is not inserted
at all and the rewrite does not ensure the hook import exists. -/
theorem c8_marker_without_newline_no_import :
    FixParams.is_client_component c8NoNewline = true ∧
      FixParams.add_use_params_import c8NoNewline = c8NoNewline ∧
      FixParams.has_params_import c8NoNewline = false := by decide

/-- Claim C8, amended, settled for both cited client rewrites.  In
fix_params.py: when the directive is followed by a newline the hook import
is inserted directly after it; without a directive the line is prepended;
the client rewrite then ensures the hook-invocation statement exists inside
the component body, inserted exactly once, and a second application leaves
the output unchanged.  In migrate-next15.py, fix_client_page inserts the
hook import after the leading import block when one exists, not directly
after the directive, and prepends it before the whole file, directive
included, when no import block exists; it too ensures the hook-invocation
statement exists inside the Page body exactly once, guarded by the
useParams() substring, and a second application leaves its output
unchanged. -/
theorem c8_import_and_hook_guarded :
    FixParams.add_use_params_import c8Marker = c8MarkerOut ∧
      FixParams.add_use_params_import c8Plain = FixParams.importLine ++ c8Plain ∧
      FixParams.fix_client_component (FixParams.add_use_params_import c8Marker) ["id".data] =
        c8AfterOnce ∧
      countSub c8AfterOnce hookInvocation = 1 ∧
      FixParams.fix_client_component c8AfterOnce ["id".data] = c8AfterOnce ∧
      MigrateNext15.fix_client_page c8PageWithImports = c8PageWithImportsOut ∧
      countSub c8PageWithImportsOut hookInvocation = 1 ∧
      MigrateNext15.fix_client_page c8PageWithImportsOut = c8PageWithImportsOut ∧
      MigrateNext15.fix_client_page c8PageNoImports = c8PageNoImportsOut ∧
      countSub c8PageNoImportsOut hookInvocation = 1 ∧
      MigrateNext15.fix_client_page c8PageNoImportsOut = c8PageNoImportsOut := by decide

/-- Claim C9: whenever the server rewrite finds a function declaration, the
extraction statement is inserted immediately after the first opening brace
of the signature-rewritten text, whatever construct that brace belongs to;
in the braced-import instance the statement lands inside the import clause,
outside the function body. -/
theorem c9_extraction_after_first_brace :
    (∀ (c : Text) (l : List Text) (pre : Text) (m : FixParams.SM),
        searchWith FixParams.tryServerFunc c = some (pre, m) →
        FixParams.fix_server_component c l =
          FixParams.subParamsOptAll l
            (specInsertAfterFirstBrace (FixParams.serverParamsDecl l)
              (pre ++ FixParams.serverNewSig m.g1 m.g2 l ++ m.rest))) ∧
      FixParams.fix_server_component c9Input ["id".data] = c9Output := by
  constructor
  · intro c l pre m h
    simp only [FixParams.fix_server_component, h]
    rw [replaceFirstChar_brace_eq_insert]
  · decide

/-- Witness for claim C9 at the braced-import instance. -/
theorem c9_witness :
    searchWith FixParams.tryServerFunc c9Input =
        some (c9Pre, FixParams.SM.mk "export default ".data "Page".data c9Rest) ∧
      FixParams.fix_server_component c9Input ["id".data] =
        FixParams.subParamsOptAll ["id".data]
          (specInsertAfterFirstBrace (FixParams.serverParamsDecl ["id".data])
            (c9Pre ++
              FixParams.serverNewSig "export default ".data "Page".data ["id".data] ++
              c9Rest)) :=
  ⟨by decide,
    c9_extraction_after_first_brace.1 c9Input ["id".data] c9Pre
      (FixParams.SM.mk "export default ".data "Page".data c9Rest) (by decide)⟩

/-- Claim C10, counterexample: a client component written as an arrow
function satisfies all stated conditions yet gets no inserted binding, so
the output does not contain the self-rewritten declaration. -/
theorem c10_arrow_component_no_binding :
    FixParams.is_client_component c10Arrow = true ∧
      FixParams.has_params_declaration c10Arrow = false ∧
      containsSub c10Arrow "params?.id;".data = true ∧
      containsSub (FixParams.fix_client_component c10Arrow ["id".data])
        "const id = id as string;".data = false := by decide

/-- Claim C10, amended: when a function declaration matches, the inserted
binding is itself rewritten by the usage-site substitution, leaving the
degenerate flat declaration rather than the optional access. -/
theorem c10_inserted_binding_self_rewritten :
    FixParams.has_params_declaration c10Fn = false ∧
      containsSub (FixParams.fix_client_component c10Fn ["id".data])
        "const id = id as string;".data = true ∧
      containsSub (FixParams.fix_client_component c10Fn ["id".data])
        "const id = params?.id as string;".data = false := by decide

end Rw
